import Mathlib

/-!
Shallow embedding of the numeric-array core of the gnuastro repository
(lib/data.c), of the quantile-range option parsing of the statistics
front end (bin/statistics/ui.c), and of the NaN-replacement step of the
segmentation entry point (src/noisechisel/segmentation.c), together with
theorems settling the frozen claims about them.

Machine floating-point values are modelled as either NaN or a finite
rational; IEEE comparison semantics (NaN is not equal to anything,
including itself) are made explicit in the comparison functions.
-/

namespace GnuastroData

/-- A machine floating-point value: NaN, or a finite value modelled as a
rational.  The same model is used for the C types float and double (the
claims only depend on NaN semantics and on ordering of finite values). -/
inductive FloatV where
  | nan : FloatV
  | fin : ℚ → FloatV
deriving DecidableEq, Repr

/-- The C isnan test (a macro, works for float and double). -/
def fisnan : FloatV → Bool
  | .nan => true
  | .fin _ => false

/-- IEEE equality comparison, as used by the C operator == on floats:
NaN compares unequal to everything, including itself. -/
def feq : FloatV → FloatV → Bool
  | .fin a, .fin b => a == b
  | _, _ => false

/-- IEEE less-than comparison, as used by the C operator < on doubles:
any comparison involving NaN is false. -/
def flt : FloatV → FloatV → Bool
  | .fin a, .fin b => a < b
  | _, _ => false

/-- The float literal 0.0f. -/
def fzero : FloatV := .fin 0

/-- The closed enumeration of element kinds, mirroring the
GAL_DATA_TYPE_* constants used throughout lib/data.c. -/
inductive GalType where
  | BIT | UCHAR | CHAR | LOGICAL | STRING
  | USHORT | SHORT | UINT | INT | ULONG | LONG | LONGLONG
  | FLOAT | DOUBLE | COMPLEX | DCOMPLEX
deriving DecidableEq, Repr

/-- A buffer element, covering the value spaces of all element kinds:
integer kinds, the two floating kinds, the two complex kinds (a pair of
floating components), and the string kind (a char pointer, none = NULL). -/
inductive Val where
  | i : Int → Val
  | f : FloatV → Val
  | cpx : FloatV → FloatV → Val
  | str : Option String → Val
deriving DecidableEq, Repr

/-- isnan applied to a buffer element reinterpreted as a float/double. -/
def isnanVal : Val → Bool
  | .f x => fisnan x
  | _ => false

/-- IEEE equality of a buffer element (as float/double) with a float. -/
def feqVal (v : Val) (y : FloatV) : Bool :=
  match v with
  | .f x => feq x y
  | _ => false

/-! Per-kind blank (sentinel) constants.  Modelled from the spec: the
GAL_DATA_BLANK_* macros live in the gnuastro/data.h header, which is not
among the provided sources.  Per spec section 3 the floating sentinels
are NaN; the integer sentinels are the extreme representable values of
the corresponding C types and the string sentinel is the NULL pointer. -/

def GAL_DATA_BLANK_UCHAR : Int := 255
def GAL_DATA_BLANK_CHAR : Int := -128
def GAL_DATA_BLANK_STRING : Option String := none
def GAL_DATA_BLANK_USHORT : Int := 65535
def GAL_DATA_BLANK_SHORT : Int := -32768
def GAL_DATA_BLANK_UINT : Int := 4294967295
def GAL_DATA_BLANK_INT : Int := -2147483648
def GAL_DATA_BLANK_ULONG : Int := 18446744073709551615
def GAL_DATA_BLANK_LONG : Int := -9223372036854775808
def GAL_DATA_BLANK_LONGLONG : Int := -9223372036854775808
def GAL_DATA_BLANK_FLOAT : FloatV := .nan
def GAL_DATA_BLANK_DOUBLE : FloatV := .nan

/-- The error taxonomy of the spec (section 7).  Every error in the C
source is a fatal error(EXIT_FAILURE, ...) call; here each detection
point is mapped to its taxonomy member. -/
inductive Err where
  | invalidShape
  | unsupportedKind
  | shapeMismatch
  | platformViolated
deriving DecidableEq, Repr

/-- Host parameters consulted by the portability guards of
gal_data_sizeof: the byte widths of the native float and double types.
The widths of the fixed-width integer kinds and of pointers are those of
the documented LP64 platform. -/
structure Host where
  floatBytes : Nat
  doubleBytes : Nat
deriving DecidableEq, Repr

/-- gal_data_sizeof (lib/data.c:71).  The C input is a plain int, so a
value outside the enumeration is possible and hits the default branch;
that case is modelled by the input none.  BIT is a recognized value that
the source rejects as unsupported. -/
def gal_data_sizeof (host : Host) : Option GalType → Except Err Nat
  | some .BIT => .error .unsupportedKind
  | some .UCHAR => .ok 1
  | some .LOGICAL => .ok 1
  | some .CHAR => .ok 1
  | some .STRING => .ok 8
  | some .USHORT => .ok 2
  | some .SHORT => .ok 2
  | some .UINT => .ok 4
  | some .INT => .ok 4
  | some .ULONG => .ok 8
  | some .LONG => .ok 8
  | some .LONGLONG => .ok 8
  | some .FLOAT =>
      if host.floatBytes ≠ 4 then .error .platformViolated
      else .ok host.floatBytes
  | some .DOUBLE =>
      if host.doubleBytes ≠ 8 then .error .platformViolated
      else .ok host.doubleBytes
  | some .COMPLEX =>
      if host.floatBytes ≠ 4 then .error .platformViolated
      else .ok (2 * host.floatBytes)
  | some .DCOMPLEX =>
      if host.doubleBytes ≠ 8 then .error .platformViolated
      else .ok (2 * host.doubleBytes)
  | none => .error .unsupportedKind

/-- The documented byte width of each supported kind (spec section 4.1,
on the documented platform where float is 4 bytes and double is 8). -/
def docWidth : GalType → Nat
  | .BIT => 0
  | .UCHAR => 1
  | .CHAR => 1
  | .LOGICAL => 1
  | .STRING => 8
  | .USHORT => 2
  | .SHORT => 2
  | .UINT => 4
  | .INT => 4
  | .ULONG => 8
  | .LONG => 8
  | .LONGLONG => 8
  | .FLOAT => 4
  | .DOUBLE => 8
  | .COMPLEX => 8
  | .DCOMPLEX => 16

/-- The closed catalog of supported kinds (spec section 4.1): everything
except BIT, which the source consistently rejects. -/
def supportedCatalog : List GalType :=
  [.UCHAR, .CHAR, .LOGICAL, .STRING, .USHORT, .SHORT, .UINT, .INT,
   .ULONG, .LONG, .LONGLONG, .FLOAT, .DOUBLE, .COMPLEX, .DCOMPLEX]

/-- The gal_data_t structure (gnuastro/data.h), restricted to the fields
lib/data.c reads or writes: element kind, per-dimension extents, total
element count, the buffer, the blank flag, the world-coordinate handle
(opaque, none = NULL), and the storage-backend fields.  The ndim field
of the C struct always equals the length of dsize (gal_data_alloc fills
both from the same argument), so ndim is derived. -/
structure GalData where
  type : GalType
  dsize : List Nat
  size : Nat
  array : List Val
  anyblank : Bool
  wcs : Option Unit
  mmapped : Bool
  mmapname : Option String
deriving DecidableEq, Repr

/-- Dimension count, as read from the ndim field. -/
def GalData.ndim (d : GalData) : Nat := d.dsize.length

/-- The extent-comparison loop of gal_data_dsize_is_different
(lib/data.c:59): return 1 at the first differing extent, 0 otherwise. -/
def dsizeLoopDifferent : List Nat → List Nat → Bool
  | a :: as, b :: bs => if a ≠ b then true else dsizeLoopDifferent as bs
  | _, _ => false

/-- gal_data_dsize_is_different (lib/data.c:49): 1 when the
dimensionalities differ, else the result of comparing the extents. -/
def gal_data_dsize_is_different (first second : GalData) : Bool :=
  if first.ndim ≠ second.ndim then true
  else dsizeLoopDifferent first.dsize second.dsize

/-- The shapesMatch operation of spec section 4.2: the negation of
gal_data_dsize_is_different. -/
def shapesMatch (a b : GalData) : Bool :=
  !(gal_data_dsize_is_different a b)

/-- The modulus of the size_t type on the documented LP64 host: 2^64.
The out.size field of gal_data_t is a size_t, so the multiplication
accumulating it wraps at this modulus. -/
def SIZE_T_MOD : Nat := 18446744073709551616

/-- The size-computation loop of gal_data_alloc (lib/data.c:275):
size starts at 1 and is multiplied by each extent in order; a zero
extent is a fatal sanity-check error.  The accumulation is size_t
arithmetic, so every multiplication is reduced modulo 2^64 (the
recursion multiplies from the other end, which yields the same residue
because multiplication modulo a fixed modulus is associative and
commutative, and it reports the same error on the same inputs). -/
def dsizeProduct : List Nat → Except Err Nat
  | [] => .ok 1
  | d :: rest =>
      if d = 0 then .error .invalidShape
      else
        match dsizeProduct rest with
        | .error e => .error e
        | .ok r => .ok (d * r % SIZE_T_MOD)

/-- All-zero-bits element of a kind, the contents of a calloc-cleared or
freshly mmapped buffer.  (A plain malloc buffer holds indeterminate
bytes; the claims never read an unwritten malloc buffer, so the same
value is used there.) -/
def zeroVal : GalType → Val
  | .FLOAT => .f (.fin 0)
  | .DOUBLE => .f (.fin 0)
  | .COMPLEX => .cpx (.fin 0) (.fin 0)
  | .DCOMPLEX => .cpx (.fin 0) (.fin 0)
  | .STRING => .str none
  | _ => .i 0

/-- gal_data_alloc (lib/data.c:243).  Order of effects as in the source:
the metadata fields are set (anyblank=0, wcs=NULL), the dsize loop
validates the extents and computes size, and then the buffer is
allocated — gal_data_malloc_array / gal_data_calloc_array / gal_data_mmap
all call gal_data_sizeof, whose failures (unsupported kind, platform
guard) happen at that point.  freshName stands for the unique temporary
path chosen by mkstemp in gal_data_mmap. -/
def gal_data_alloc (host : Host) (type : GalType) (dsize : List Nat)
    (clear mp : Bool) (freshName : String) : Except Err GalData :=
  match dsizeProduct dsize with
  | .error e => .error e
  | .ok size =>
    match gal_data_sizeof host (some type) with
    | .error e => .error e
    | .ok _ =>
      if mp then
        .ok { type := type, dsize := dsize, size := size,
              array := List.replicate size (zeroVal type),
              anyblank := false, wcs := none,
              mmapped := true, mmapname := some freshName }
      else if clear then
        .ok { type := type, dsize := dsize, size := size,
              array := List.replicate size (zeroVal type),
              anyblank := false, wcs := none,
              mmapped := false, mmapname := none }
      else
        .ok { type := type, dsize := dsize, size := size,
              array := List.replicate size (zeroVal type),
              anyblank := false, wcs := none,
              mmapped := false, mmapname := none }

/-- The observable effects of one gal_data_free call: whether wcsfree
ran, which files were removed from disk, whether munmap was called,
whether the path string was freed, and whether the heap buffer was
freed.  Each field records exactly the calls present in the source
body (lib/data.c:312). -/
structure FreeTrace where
  wcsFreed : Bool
  dsizeFreed : Bool
  munmapCalled : Bool
  removedFiles : List String
  freedPathString : Bool
  freedHeapBuffer : Bool
  structFreed : Bool
deriving DecidableEq, Repr

/-- gal_data_free (lib/data.c:312): wcsfree if wcs is set, free(dsize),
then one of two teardown paths selected by the mmapped tag: the mapped
path calls remove(mmapname) and free(mmapname) — the source contains no
munmap call — and the heap path calls free(array); finally free(data). -/
def gal_data_free (d : GalData) : FreeTrace :=
  if d.mmapped then
    { wcsFreed := d.wcs.isSome, dsizeFreed := true,
      munmapCalled := false,
      removedFiles := [d.mmapname.getD ""],
      freedPathString := true, freedHeapBuffer := false,
      structFreed := true }
  else
    { wcsFreed := d.wcs.isSome, dsizeFreed := true,
      munmapCalled := false,
      removedFiles := [],
      freedPathString := false, freedHeapBuffer := true,
      structFreed := true }

/-- Modelled from the spec: truncation toward zero of a rational, the
standard C float-to-integer cast used by the missing conversion
routines. -/
def ratTrunc (q : ℚ) : Int := Int.tdiv q.num q.den

/-- Modelled from the spec: the numeric value of a buffer element read
as a float/double source (section 4.5; the per-source-kind dispatch of
the gal_changetype_out_is_* routines, file lib/changetype.c, is not
among the provided sources).  A NaN source converted to an integer kind
is undefined behaviour in C; 0 is used as the arbitrary model value. -/
def convertValToFloat : Val → FloatV
  | .i n => .fin n
  | .f x => x
  | .cpx re _ => re
  | .str _ => .fin 0

/-- Modelled from the spec: the numeric value of a buffer element read
as an integer source (section 4.5). -/
def convertValToInt : Val → Int
  | .i n => n
  | .f (.fin q) => ratTrunc q
  | .f .nan => 0
  | .cpx (.fin q) _ => ratTrunc q
  | .cpx .nan _ => 0
  | .str _ => 0

/-- Modelled from the spec: one elementwise conversion step to the
destination kind (section 4.5), standing in for the missing
gal_changetype_out_is_* routines.  Only destinations that appear in the
switch of gal_data_copy_to_new_type are meaningful. -/
def convertVal (dst : GalType) (v : Val) : Val :=
  match dst with
  | .FLOAT => .f (convertValToFloat v)
  | .DOUBLE => .f (convertValToFloat v)
  | _ => .i (convertValToInt v)

/-- gal_data_copy_to_new_type (lib/data.c:805): allocate the output with
the same extents, clear=0 and map equal to the mmapped tag of the input,
then dispatch on the destination kind to one elementwise conversion
routine; destinations outside the eleven listed cases hit the default
error branch. -/
def gal_data_copy_to_new_type (host : Host) (freshName : String)
    (input : GalData) (newtype : GalType) : Except Err GalData :=
  match gal_data_alloc host newtype input.dsize false input.mmapped freshName with
  | .error e => .error e
  | .ok out =>
    match newtype with
    | .UCHAR => .ok { out with array := input.array.map (convertVal .UCHAR) }
    | .CHAR => .ok { out with array := input.array.map (convertVal .CHAR) }
    | .USHORT => .ok { out with array := input.array.map (convertVal .USHORT) }
    | .SHORT => .ok { out with array := input.array.map (convertVal .SHORT) }
    | .UINT => .ok { out with array := input.array.map (convertVal .UINT) }
    | .INT => .ok { out with array := input.array.map (convertVal .INT) }
    | .ULONG => .ok { out with array := input.array.map (convertVal .ULONG) }
    | .LONG => .ok { out with array := input.array.map (convertVal .LONG) }
    | .LONGLONG => .ok { out with array := input.array.map (convertVal .LONGLONG) }
    | .FLOAT => .ok { out with array := input.array.map (convertVal .FLOAT) }
    | .DOUBLE => .ok { out with array := input.array.map (convertVal .DOUBLE) }
    | _ => .error .unsupportedKind

/-- The destination kinds accepted by the switch of
gal_data_copy_to_new_type. -/
def convertTargets : List GalType :=
  [.UCHAR, .CHAR, .USHORT, .SHORT, .UINT, .INT, .ULONG, .LONG,
   .LONGLONG, .FLOAT, .DOUBLE]

/-- A mask (already converted to float) element read through the mpt
pointer of gal_data_apply_mask.  The converted mask buffer always holds
float elements; the other branches model a reinterpretation that the
program never performs. -/
def valAsFloat : Val → FloatV
  | .f x => x
  | .i n => .fin n
  | .cpx re _ => re
  | .str _ => .fin 0

/-- The per-element write of the non-complex branches of
gal_data_apply_mask (for example lib/data.c:549):
x = (m == 0.0f) ? x : BLANK. -/
def maskLoopStd (blank : Val) : List FloatV → List Val → List Val
  | m :: ms, x :: xs =>
      (if feq m fzero then x else blank) :: maskLoopStd blank ms xs
  | _, xs => xs

/-- The per-element write of the COMPLEX and DCOMPLEX branches of
gal_data_apply_mask (lib/data.c:601, lib/data.c:608):
if (m == 0.0f) set the element to BLANK — note the condition, compared
with maskLoopStd, is inverted. -/
def maskLoopCpx (blank : Val) : List FloatV → List Val → List Val
  | m :: ms, x :: xs =>
      (if feq m fzero then blank else x) :: maskLoopCpx blank ms xs
  | _, xs => xs

/-- gal_data_apply_mask (lib/data.c:481).  Steps as in the source: the
two shape checks (dimensionality, then extents — both fatal caller
errors, ShapeMismatch in the taxonomy), conversion of the mask to float
unless it already is float, the all-zero prescan of the converted mask,
and if any mask element is non-zero, anyblank is set and the per-kind
write loop runs. -/
def gal_data_apply_mask (host : Host) (freshName : String)
    (inp mask : GalData) : Except Err GalData :=
  if inp.ndim ≠ mask.ndim then .error .shapeMismatch
  else if gal_data_dsize_is_different inp mask then .error .shapeMismatch
  else
    match (if mask.type = .FLOAT then .ok mask
           else gal_data_copy_to_new_type host freshName mask .FLOAT) with
    | .error e => .error e
    | .ok converted =>
      let mpt : List FloatV := converted.array.map valAsFloat
      let hasblank : Bool := mpt.any (fun m => !(feq m fzero))
      if hasblank then
        match inp.type with
        | .BIT => .error .unsupportedKind
        | .UCHAR =>
            .ok { inp with
                  anyblank := true,
                  array := maskLoopStd (.i GAL_DATA_BLANK_UCHAR) mpt inp.array }
        | .CHAR =>
            .ok { inp with
                  anyblank := true,
                  array := maskLoopStd (.i GAL_DATA_BLANK_CHAR) mpt inp.array }
        | .LOGICAL =>
            .ok { inp with
                  anyblank := true,
                  array := maskLoopStd (.i GAL_DATA_BLANK_CHAR) mpt inp.array }
        | .STRING =>
            .ok { inp with
                  anyblank := true,
                  array := maskLoopStd (.str GAL_DATA_BLANK_STRING) mpt inp.array }
        | .USHORT =>
            .ok { inp with
                  anyblank := true,
                  array := maskLoopStd (.i GAL_DATA_BLANK_USHORT) mpt inp.array }
        | .SHORT =>
            .ok { inp with
                  anyblank := true,
                  array := maskLoopStd (.i GAL_DATA_BLANK_SHORT) mpt inp.array }
        | .UINT =>
            .ok { inp with
                  anyblank := true,
                  array := maskLoopStd (.i GAL_DATA_BLANK_UINT) mpt inp.array }
        | .INT =>
            .ok { inp with
                  anyblank := true,
                  array := maskLoopStd (.i GAL_DATA_BLANK_INT) mpt inp.array }
        | .ULONG =>
            .ok { inp with
                  anyblank := true,
                  array := maskLoopStd (.i GAL_DATA_BLANK_ULONG) mpt inp.array }
        | .LONG =>
            .ok { inp with
                  anyblank := true,
                  array := maskLoopStd (.i GAL_DATA_BLANK_LONG) mpt inp.array }
        | .LONGLONG =>
            .ok { inp with
                  anyblank := true,
                  array := maskLoopStd (.i GAL_DATA_BLANK_LONGLONG) mpt inp.array }
        | .FLOAT =>
            .ok { inp with
                  anyblank := true,
                  array := maskLoopStd (.f GAL_DATA_BLANK_FLOAT) mpt inp.array }
        | .DOUBLE =>
            .ok { inp with
                  anyblank := true,
                  array := maskLoopStd (.f GAL_DATA_BLANK_DOUBLE) mpt inp.array }
        | .COMPLEX =>
            .ok { inp with
                  anyblank := true,
                  array := maskLoopCpx (.cpx GAL_DATA_BLANK_FLOAT GAL_DATA_BLANK_FLOAT) mpt inp.array }
        | .DCOMPLEX =>
            .ok { inp with
                  anyblank := true,
                  array := maskLoopCpx (.cpx GAL_DATA_BLANK_DOUBLE GAL_DATA_BLANK_DOUBLE) mpt inp.array }
      else .ok inp

/-- Wrap an Int to the value range of a 32-bit signed integer, the
effect of reading a 64-bit long replacement value through an int32_t
pointer on the documented little-endian LP64 host (lib/data.c:648). -/
def wrap32 (n : Int) : Int :=
  (n + 2147483648) % 4294967296 - 2147483648

/-- The result of running a fatal-error-on-failure routine under a fuel
bound: a value, a fatal error, or fuel exhaustion (the loop did not
finish within the given number of iterations). -/
inductive RunRes (α : Type) where
  | ok : α → RunRes α
  | err : Err → RunRes α
  | timeout : RunRes α
deriving DecidableEq, Repr

/-- The shared shape of every non-complex branch of
gal_data_blank_to_value (lib/data.c:662 and the like):

  do if(test(*p)) *p++ = v; while(p < pf);

One body execution: when the blank test holds, the element is
overwritten and the pointer advances; otherwise NOTHING advances.  The
loop repeats while the pointer has not reached the end.  fuel bounds the
number of body executions; none means the fuel ran out with the loop
still running. -/
def blankToValueLoop (test : Val → Bool) (v : Val) :
    Nat → Nat → List Val → Option (List Val)
  | 0, _, _ => none
  | fuel + 1, i, a =>
      let hit := test (a.getD i (.i 0))
      let a2 := if hit then a.set i v else a
      let i2 := if hit then i + 1 else i
      if i2 < a.length then blankToValueLoop test v fuel i2 a2
      else some a2

/-- The shape of the COMPLEX and DCOMPLEX branches of
gal_data_blank_to_value (lib/data.c:733):

  do if(test(*p)) set(*p); while(++p < pf);

Here the pointer advances on every iteration, so the loop is a plain
elementwise pass. -/
def blankToValueLoopCpx (test : Val → Bool) (v : Val) : List Val → List Val
  | [] => []
  | x :: xs => (if test x then v else x) :: blankToValueLoopCpx test v xs

/-- The blank test the FLOAT branch of gal_data_blank_to_value selects
(lib/data.c:716): if the float blank value is NaN the isnan test is
used, otherwise ordinary equality against the blank value. -/
def floatBlankTestUsed : Val → Bool :=
  if fisnan GAL_DATA_BLANK_FLOAT then isnanVal
  else fun x => feqVal x GAL_DATA_BLANK_FLOAT

/-- The blank test the DOUBLE branch of gal_data_blank_to_value selects
(lib/data.c:724).  Note the source of the (dead) non-NaN alternative
compares against the FLOAT blank constant, faithfully kept here. -/
def doubleBlankTestUsed : Val → Bool :=
  if fisnan GAL_DATA_BLANK_DOUBLE then isnanVal
  else fun x => feqVal x GAL_DATA_BLANK_FLOAT

/-- The blank test of the COMPLEX branch (lib/data.c:732): both
components NaN when the float blank is NaN, else both components equal
to the float blank. -/
def cpxBlankTestUsed : Val → Bool :=
  if fisnan GAL_DATA_BLANK_FLOAT then
    fun x => match x with
      | .cpx re im => fisnan re && fisnan im
      | _ => false
  else
    fun x => match x with
      | .cpx re im => feq re GAL_DATA_BLANK_FLOAT && feq im GAL_DATA_BLANK_FLOAT
      | _ => false

/-- The blank test of the DCOMPLEX branch (lib/data.c:750); as in the
source, the (dead) non-NaN alternative compares against the FLOAT blank
constant. -/
def dcpxBlankTestUsed : Val → Bool :=
  if fisnan GAL_DATA_BLANK_DOUBLE then
    fun x => match x with
      | .cpx re im => fisnan re && fisnan im
      | _ => false
  else
    fun x => match x with
      | .cpx re im => feq re GAL_DATA_BLANK_FLOAT && feq im GAL_DATA_BLANK_FLOAT
      | _ => false

/-- Run one non-complex branch of gal_data_blank_to_value on the whole
buffer, starting the do-while at the first element. -/
def runBlankLoop (d : GalData) (test : Val → Bool) (v : Val)
    (fuel : Nat) : RunRes GalData :=
  match blankToValueLoop test v fuel 0 d.array with
  | some a => .ok { d with array := a }
  | none => .timeout

/-- gal_data_blank_to_value (lib/data.c:632): per-kind dispatch.  The
replacement value is read per kind from the caller-supplied pointer; the
LONG case reads it through an int32_t pointer (lib/data.c:648), modelled
by wrap32.  fuel bounds the loop iterations of the non-complex
branches. -/
def gal_data_blank_to_value (d : GalData) (value : Val) (fuel : Nat) :
    RunRes GalData :=
  match d.type with
  | .BIT => .err .unsupportedKind
  | .UCHAR => runBlankLoop d (fun x => x == .i GAL_DATA_BLANK_UCHAR) value fuel
  | .CHAR => runBlankLoop d (fun x => x == .i GAL_DATA_BLANK_CHAR) value fuel
  | .LOGICAL => runBlankLoop d (fun x => x == .i GAL_DATA_BLANK_CHAR) value fuel
  | .STRING => runBlankLoop d (fun x => x == .str GAL_DATA_BLANK_STRING) value fuel
  | .USHORT => runBlankLoop d (fun x => x == .i GAL_DATA_BLANK_USHORT) value fuel
  | .SHORT => runBlankLoop d (fun x => x == .i GAL_DATA_BLANK_SHORT) value fuel
  | .UINT => runBlankLoop d (fun x => x == .i GAL_DATA_BLANK_UINT) value fuel
  | .INT => runBlankLoop d (fun x => x == .i GAL_DATA_BLANK_INT) value fuel
  | .ULONG => runBlankLoop d (fun x => x == .i GAL_DATA_BLANK_ULONG) value fuel
  | .LONG =>
      let lv : Val := match value with
        | .i n => .i (wrap32 n)
        | other => other
      runBlankLoop d (fun x => x == .i GAL_DATA_BLANK_LONG) lv fuel
  | .LONGLONG => runBlankLoop d (fun x => x == .i GAL_DATA_BLANK_LONGLONG) value fuel
  | .FLOAT => runBlankLoop d floatBlankTestUsed value fuel
  | .DOUBLE => runBlankLoop d doubleBlankTestUsed value fuel
  | .COMPLEX =>
      .ok { d with array := blankToValueLoopCpx cpxBlankTestUsed value d.array }
  | .DCOMPLEX =>
      .ok { d with array := blankToValueLoopCpx dcpxBlankTestUsed value d.array }

/-- Outcome of the ARGS_OPTION_KEY_QRANGE branch of ui_parse_numbers
(bin/statistics/ui.c:319): success with the two stored quantiles, the
wrong-number-of-values error, or the out-of-range error. -/
inductive QRangeResult where
  | ok : FloatV → FloatV → QRangeResult
  | countErr : QRangeResult
  | rangeErr : QRangeResult
deriving DecidableEq, Repr

/-- The ARGS_OPTION_KEY_QRANGE branch of ui_parse_numbers
(bin/statistics/ui.c:319): reject unless one or two numbers were parsed;
store quantmin (and quantmax when two numbers were given, the previous
value — NaN when never set — being kept otherwise); reject values
outside [0,1]; then break.  The single-value sanity check of
bin/statistics/ui.c:347 (reject quantmin > 0.5) is placed AFTER the
break statement of line 344, so control never reaches it: the
translation of the executed statements ends at the break. -/
def ui_parse_qrange (quantmin0 quantmax0 : FloatV) (nums : List FloatV) :
    QRangeResult :=
  if nums.length ≠ 1 ∧ nums.length ≠ 2 then .countErr
  else
    let quantmin := nums.getD 0 quantmin0
    let quantmax := if nums.length = 2 then nums.getD 1 quantmax0 else quantmax0
    if (flt quantmin (.fin 0) || flt (.fin 1) quantmin)
        || (!fisnan quantmax
            && (flt quantmax (.fin 0) || flt (.fin 1) quantmax)) then
      .rangeErr
    else .ok quantmin quantmax

/-- The largest finite value of the C float type, FLT_MAX. -/
def FLT_MAX : FloatV := .fin ((2 : ℚ) ^ 128 - (2 : ℚ) ^ 104)

/-- The NaN-replacement pass of the segmentation entry point
(src/noisechisel/segmentation.c:89):

  do if(isnan(*f)) *f = FLT_MAX; while(++f < fp);

The pointer advances every iteration, so this is one elementwise pass
over the s0*s1 elements of the convolved image. -/
def segNanLoop : List FloatV → List FloatV
  | [] => []
  | x :: xs => (if fisnan x then FLT_MAX else x) :: segNanLoop xs

/-- The conditional around that pass (src/noisechisel/segmentation.c:87):
the convolved image is rewritten only when the count of blank pixels is
non-zero. -/
def segmentationConvStep (numblank : Nat) (conv : List FloatV) :
    List FloatV :=
  if numblank ≠ 0 then segNanLoop conv else conv

/-- Concrete two-element COMPLEX array used to exercise the complex
branch of gal_data_apply_mask. -/
def cpxMaskedIn : GalData :=
  ⟨.COMPLEX, [2], 2, [.cpx (.fin 1) (.fin 2), .cpx (.fin 3) (.fin 4)],
   false, none, false, none⟩

/-- Concrete FLOAT mask whose first element is non-zero and whose second
element is zero. -/
def cpxMask : GalData :=
  ⟨.FLOAT, [2], 2, [.f (.fin 1), .f (.fin 0)], false, none, false, none⟩

/-- Concrete one-element FLOAT array holding the non-blank value 1.0. -/
def stuckFloatData : GalData :=
  ⟨.FLOAT, [1], 1, [.f (.fin 1)], false, none, false, none⟩

/-- Concrete MappedFile-backed array. -/
def exMapped : GalData :=
  ⟨.FLOAT, [1], 1, [.f (.fin 0)], false, none, true,
   some "./.gnuastro/mmap_ABCDEF"⟩

/-- Concrete 1-dimensional arrays of different extents. -/
def exShapeA : GalData :=
  ⟨.FLOAT, [2], 2, [.f (.fin 1), .f (.fin 2)], false, none, false, none⟩

/-- Second array for the shape-mismatch witness: three elements. -/
def exShapeB : GalData :=
  ⟨.FLOAT, [3], 3, [.f (.fin 1), .f (.fin 2), .f (.fin 3)],
   false, none, false, none⟩

/-- Concrete heap-backed one-element FLOAT array used as a conversion
input. -/
def exConvIn : GalData :=
  ⟨.FLOAT, [1], 1, [.f (.fin 1)], false, none, false, none⟩

/-- C9: for every kind in the supported catalog (on a host with 4-byte
float and 8-byte double) gal_data_sizeof returns the documented byte
width; it fails with PlatformAssumptionViolated exactly when the kind
involves float/double (or their complex forms) and the corresponding
host width is wrong; and it fails with UnsupportedKind for values
outside the closed catalog (unknown values and BIT). -/
theorem sizeof_catalog_widths_and_guards (host : Host) (k : GalType) :
    (k ∈ supportedCatalog → host.floatBytes = 4 → host.doubleBytes = 8 →
      gal_data_sizeof host (some k) = .ok (docWidth k))
    ∧ (gal_data_sizeof host (some k) = .error .platformViolated ↔
        (((k = .FLOAT ∨ k = .COMPLEX) ∧ host.floatBytes ≠ 4)
          ∨ ((k = .DOUBLE ∨ k = .DCOMPLEX) ∧ host.doubleBytes ≠ 8)))
    ∧ gal_data_sizeof host none = .error .unsupportedKind
    ∧ gal_data_sizeof host (some .BIT) = .error .unsupportedKind := by
  refine ⟨?_, ?_, rfl, rfl⟩
  · intro hk h4 h8
    cases k <;> simp_all [gal_data_sizeof, docWidth, supportedCatalog]
  · cases k <;>
      by_cases h4 : host.floatBytes = 4 <;>
      by_cases h8 : host.doubleBytes = 8 <;>
      simp_all [gal_data_sizeof]

/-- Witness for C9: on the documented host, the float width is returned
as 4 bytes. -/
theorem sizeof_catalog_widths_and_guards_witness :
    gal_data_sizeof ⟨4, 8⟩ (some .FLOAT) = .ok (docWidth .FLOAT) :=
  (sizeof_catalog_widths_and_guards ⟨4, 8⟩ .FLOAT).1 (by decide) rfl rfl

/-- Helper: on the documented host every catalog kind has a size. -/
theorem sizeof_supported_ok (host : Host) (k : GalType)
    (hk : k ∈ supportedCatalog) (h4 : host.floatBytes = 4)
    (h8 : host.doubleBytes = 8) :
    gal_data_sizeof host (some k) = .ok (docWidth k) := by
  cases k <;> simp_all [gal_data_sizeof, docWidth, supportedCatalog]

/-- Helper: the size loop rejects a dimension list containing a zero. -/
theorem dsizeProduct_err (l : List Nat) (h : 0 ∈ l) :
    dsizeProduct l = .error .invalidShape := by
  induction l with
  | nil => cases h
  | cons d rest ih =>
      rcases List.mem_cons.mp h with h0 | h0
      · simp [dsizeProduct, h0.symm]
      · by_cases hd : d = 0
        · simp [dsizeProduct, hd]
        · simp [dsizeProduct, hd, ih h0]

/-- Helper: on a zero-free dimension list the size loop returns the
product of the extents reduced modulo 2^64 (the size_t wrap). -/
theorem dsizeProduct_ok (l : List Nat) (h : 0 ∉ l) :
    dsizeProduct l = .ok (l.prod % SIZE_T_MOD) := by
  induction l with
  | nil => rfl
  | cons d rest ih =>
      have hd : d ≠ 0 := fun hc => h (hc ▸ List.mem_cons_self d rest)
      have hr : 0 ∉ rest := fun hc => h (List.mem_cons_of_mem d hc)
      simp [dsizeProduct, hd, ih hr, Nat.mul_mod_mod]

/-- C4 counterexample: with the all-positive extents
[2^32, 2^32, 2] the size_t accumulation of gal_data_alloc wraps to 0,
so the returned count is NOT the product of the extents (which is
2^65). -/
theorem alloc_size_wraps_counterexample :
    gal_data_alloc ⟨4, 8⟩ .UCHAR [4294967296, 4294967296, 2] false false "x"
      = .ok ⟨.UCHAR, [4294967296, 4294967296, 2], 0, [], false, none,
             false, none⟩
    ∧ (0 : Nat) ≠ ([4294967296, 4294967296, 2] : List Nat).prod := by
  constructor
  · rfl
  · norm_num

/-- C4 as amended: gal_data_alloc fails with InvalidShape whenever some
extent is zero, and with all-positive extents (for a catalog kind on
the documented host) it returns an array whose anyblank flag is false,
whose wcs handle is NULL, and whose size field is the product of the
extents reduced modulo 2^64 — the size_t accumulation wraps, so the
count equals the product exactly whenever that product is below
2^64. -/
theorem alloc_shape_validation (host : Host) (k : GalType)
    (dsize : List Nat) (clear mp : Bool) (nm : String) :
    ((0 : Nat) ∈ dsize →
      gal_data_alloc host k dsize clear mp nm = .error .invalidShape)
    ∧ ((0 : Nat) ∉ dsize → k ∈ supportedCatalog →
        host.floatBytes = 4 → host.doubleBytes = 8 →
        ∃ d, gal_data_alloc host k dsize clear mp nm = .ok d
          ∧ d.size = dsize.prod % SIZE_T_MOD
          ∧ (dsize.prod < SIZE_T_MOD → d.size = dsize.prod)
          ∧ d.anyblank = false ∧ d.wcs = none) := by
  constructor
  · intro h
    simp [gal_data_alloc, dsizeProduct_err dsize h]
  · intro h hk h4 h8
    cases mp <;> cases clear <;>
      (simp [gal_data_alloc, dsizeProduct_ok dsize h,
             sizeof_supported_ok host k hk h4 h8]
       exact fun hlt => Nat.mod_eq_of_lt hlt)

/-- Witness for C4: allocating a 2x3 INT array on the documented host
succeeds with size 6 (the product, unwrapped since 6 < 2^64), no blanks
and no coordinate metadata. -/
theorem alloc_shape_validation_witness :
    ∃ d, gal_data_alloc ⟨4, 8⟩ .INT [2, 3] false false "x" = .ok d
      ∧ d.size = ([2, 3] : List Nat).prod % SIZE_T_MOD
      ∧ (([2, 3] : List Nat).prod < SIZE_T_MOD →
          d.size = ([2, 3] : List Nat).prod)
      ∧ d.anyblank = false ∧ d.wcs = none :=
  (alloc_shape_validation ⟨4, 8⟩ .INT [2, 3] false false "x").2
    (by decide) (by decide) rfl rfl

/-- Helper: on equal-length lists the extent loop returns false exactly
on equal lists. -/
theorem dsizeLoopDifferent_false_iff (as bs : List Nat)
    (h : as.length = bs.length) :
    dsizeLoopDifferent as bs = false ↔ as = bs := by
  induction as generalizing bs with
  | nil => cases bs with
    | nil => simp [dsizeLoopDifferent]
    | cons b bs => simp at h
  | cons a as ih => cases bs with
    | nil => simp at h
    | cons b bs =>
        simp only [List.length_cons, Nat.succ.injEq] at h
        by_cases hab : a = b
        · simp [dsizeLoopDifferent, hab, ih bs h]
        · simp [dsizeLoopDifferent, hab]

/-- C8: shapesMatch (the negation of gal_data_dsize_is_different) is
true exactly when the two arrays have the same rank and identical
extents in the same order, and gal_data_apply_mask on arrays whose
shapes differ fails with ShapeMismatch (no modified target is
produced). -/
theorem shapes_match_iff_and_mask_guard (a b : GalData) :
    (shapesMatch a b = true ↔ a.ndim = b.ndim ∧ a.dsize = b.dsize)
    ∧ (gal_data_dsize_is_different a b = true →
        ∀ host fn, gal_data_apply_mask host fn a b = .error .shapeMismatch) := by
  constructor
  · by_cases h : a.ndim = b.ndim
    · have := dsizeLoopDifferent_false_iff a.dsize b.dsize h
      simp [shapesMatch, gal_data_dsize_is_different, h, this]
    · simp [shapesMatch, gal_data_dsize_is_different, h]
  · intro hdiff host fn
    by_cases h : a.ndim = b.ndim <;>
      simp_all [gal_data_apply_mask, gal_data_dsize_is_different]

/-- Witness for C8: masking a 2-element array with a 3-element mask
fails with ShapeMismatch. -/
theorem shapes_match_iff_and_mask_guard_witness :
    gal_data_apply_mask ⟨4, 8⟩ "n" exShapeA exShapeB = .error .shapeMismatch :=
  (shapes_match_iff_and_mask_guard exShapeA exShapeB).2 (by decide) ⟨4, 8⟩ "n"

/-- C5 counterexample: freeing a concrete MappedFile-backed array
executes no munmap call (the claim asserts the buffer is unmapped). -/
theorem free_mapped_no_munmap_counterexample :
    exMapped.mmapped = true
    ∧ ((gal_data_free exMapped).munmapCalled = true → False) := by
  exact ⟨rfl, fun h => by simp [gal_data_free, exMapped] at h⟩

/-- C5 as amended: freeing a MappedFile-backed array removes the backing
file from disk and frees the path string — but performs no munmap, the
mapping being released only at process exit — while freeing a
Heap-backed array releases the buffer and never touches the filesystem;
which teardown path runs is decided solely by the mmapped tag. -/
theorem free_teardown_by_backend_tag (d : GalData) (p : String) :
    (d.mmapped = true → d.mmapname = some p →
      (gal_data_free d).removedFiles = [p]
      ∧ (gal_data_free d).freedPathString = true
      ∧ (gal_data_free d).freedHeapBuffer = false
      ∧ (gal_data_free d).munmapCalled = false)
    ∧ (d.mmapped = false →
      (gal_data_free d).removedFiles = []
      ∧ (gal_data_free d).freedPathString = false
      ∧ (gal_data_free d).freedHeapBuffer = true
      ∧ (gal_data_free d).munmapCalled = false) := by
  constructor
  · intro hm hp
    simp [gal_data_free, hm, hp]
  · intro hm
    simp [gal_data_free, hm]

/-- Witness for C5: the teardown trace of the concrete mapped array. -/
theorem free_teardown_by_backend_tag_witness :
    (gal_data_free exMapped).removedFiles = ["./.gnuastro/mmap_ABCDEF"]
    ∧ (gal_data_free exMapped).freedPathString = true
    ∧ (gal_data_free exMapped).freedHeapBuffer = false
    ∧ (gal_data_free exMapped).munmapCalled = false :=
  (free_teardown_by_backend_tag exMapped "./.gnuastro/mmap_ABCDEF").1 rfl rfl

/-- C3: in the quantrange branch of ui_parse_numbers, for every single
parsed number q with 0 <= q <= 1 parsing completes successfully and
stores quantmin = q — even when q > 0.5 — because the sanity check that
would reject quantmin > 0.5 sits after the break statement and is never
executed. -/
theorem qrange_single_value_dead_check (q : ℚ)
    (h0 : 0 ≤ q) (h1 : q ≤ 1) :
    ui_parse_qrange (.fin 0) .nan [.fin q] = .ok (.fin q) .nan := by
  have hq0 : ¬ q < 0 := not_lt.mpr h0
  have hq1 : ¬ 1 < q := not_lt.mpr h1
  simp [ui_parse_qrange, flt, fisnan, hq0, hq1]

/-- Witness for C3: the single value 0.7, strictly larger than 0.5, is
accepted and stored as quantmin. -/
theorem qrange_single_value_dead_check_witness :
    ui_parse_qrange (.fin 0) .nan [.fin (7 / 10)] = .ok (.fin (7 / 10)) .nan :=
  qrange_single_value_dead_check (7 / 10) (by norm_num) (by norm_num)

/-- C6: the blank test selected by the FLOAT and DOUBLE branches of
gal_data_blank_to_value is the isnan test at every element — never
ordinary equality against the sentinel — so an element holding the
sentinel (NaN) is detected as blank even though IEEE equality of that
element with itself is false. -/
theorem float_blank_test_is_isnan :
    (∀ x : Val, floatBlankTestUsed x = isnanVal x)
    ∧ floatBlankTestUsed (.f GAL_DATA_BLANK_FLOAT) = true
    ∧ feq GAL_DATA_BLANK_FLOAT GAL_DATA_BLANK_FLOAT = false
    ∧ (∀ x : Val, doubleBlankTestUsed x = isnanVal x)
    ∧ doubleBlankTestUsed (.f GAL_DATA_BLANK_DOUBLE) = true
    ∧ feq GAL_DATA_BLANK_DOUBLE GAL_DATA_BLANK_DOUBLE = false :=
  ⟨fun _ => rfl, rfl, rfl, fun _ => rfl, rfl, rfl⟩

/-- Helper: the segmentation NaN loop is the elementwise map that sends
NaN to FLT_MAX and keeps everything else. -/
theorem segNanLoop_eq_map (l : List FloatV) :
    segNanLoop l = l.map (fun x => if fisnan x then FLT_MAX else x) := by
  induction l with
  | nil => rfl
  | cons x xs ih => simp [segNanLoop, ih]

/-- C10: when the blank-pixel count is non-zero the convolved image is
rewritten elementwise, every NaN element becoming FLT_MAX and every
non-NaN element staying unchanged; when the count is zero the convolved
image is not modified at all. -/
theorem segmentation_nan_replacement (nb : Nat) (conv : List FloatV) :
    (nb ≠ 0 → segmentationConvStep nb conv
        = conv.map (fun x => if fisnan x then FLT_MAX else x))
    ∧ (nb = 0 → segmentationConvStep nb conv = conv) := by
  constructor
  · intro h
    simp [segmentationConvStep, h, segNanLoop_eq_map]
  · intro h
    simp [segmentationConvStep, h]

/-- Witness for C10: with one blank pixel recorded, the NaN element
becomes FLT_MAX and the finite element survives. -/
theorem segmentation_nan_replacement_witness :
    segmentationConvStep 1 [.nan, .fin 2]
      = ([.nan, .fin 2] : List FloatV).map
          (fun x => if fisnan x then FLT_MAX else x) :=
  (segmentation_nan_replacement 1 [.nan, .fin 2]).1 (by decide)

/-- C7: for every input array (with valid extents) and every destination
kind accepted by the conversion switch, gal_data_copy_to_new_type on the
documented host returns a fresh array with the same extents (hence the
same rank), the requested kind, and the same backend tag as the input,
whose anyblank flag is false and whose wcs handle is NULL regardless of
the input metadata; its buffer is the elementwise conversion of the
input buffer, and — the embedding being purely functional on the input —
the input array is left unmodified. -/
theorem convert_metadata_reset (inp : GalData) (k : GalType) (fn : String)
    (hk : k ∈ convertTargets) (hz : (0 : Nat) ∉ inp.dsize) :
    ∃ out, gal_data_copy_to_new_type ⟨4, 8⟩ fn inp k = .ok out
      ∧ out.dsize = inp.dsize ∧ out.type = k ∧ out.mmapped = inp.mmapped
      ∧ out.anyblank = false ∧ out.wcs = none
      ∧ out.array = inp.array.map (convertVal k) := by
  have hprod := dsizeProduct_ok inp.dsize hz
  simp only [convertTargets, List.mem_cons, List.mem_singleton,
    List.not_mem_nil, or_false] at hk
  rcases hk with rfl | rfl | rfl | rfl | rfl | rfl | rfl | rfl | rfl | rfl | rfl <;>
    cases hmp : inp.mmapped <;>
      simp [gal_data_copy_to_new_type, gal_data_alloc, hprod,
            gal_data_sizeof, hmp]

/-- Witness for C7: converting a heap-backed FLOAT array to UCHAR. -/
theorem convert_metadata_reset_witness :
    ∃ out, gal_data_copy_to_new_type ⟨4, 8⟩ "nm" exConvIn .UCHAR = .ok out
      ∧ out.dsize = exConvIn.dsize ∧ out.type = .UCHAR
      ∧ out.mmapped = exConvIn.mmapped
      ∧ out.anyblank = false ∧ out.wcs = none
      ∧ out.array = exConvIn.array.map (convertVal .UCHAR) :=
  convert_metadata_reset exConvIn .UCHAR "nm" (by decide) (by decide)

/-- C1 failing-input evaluation: applying a FLOAT mask [1, 0] to a
two-element COMPLEX array leaves the element under the NON-ZERO mask
value unchanged and overwrites the element under the ZERO mask value
with the (NaN, NaN) sentinel — the exact inversion of the claim and of
the comment above gal_data_apply_mask — while still setting anyblank. -/
theorem apply_mask_complex_inverted :
    gal_data_apply_mask ⟨4, 8⟩ "nm" cpxMaskedIn cpxMask
      = .ok { cpxMaskedIn with
              anyblank := true,
              array := [.cpx (.fin 1) (.fin 2), .cpx .nan .nan] } := by
  rfl

/-- Helper: a blankToValueLoop standing on a non-blank element never
advances, so no amount of fuel completes it. -/
theorem blankToValueLoop_stuck (test : Val → Bool) (v : Val) (i : Nat)
    (a : List Val) (hi : i < a.length) (hmiss : test (a.getD i (.i 0)) = false) :
    ∀ fuel, blankToValueLoop test v fuel i a = none := by
  intro fuel
  induction fuel with
  | zero => rfl
  | succ n ih =>
      have hmiss2 : test a[i] = false := by
        rw [← List.getD_eq_getElem a (Val.i 0) hi]
        exact hmiss
      simp [blankToValueLoop, hmiss2, hi, ih]

/-- C2 failing-input evaluation: on a FLOAT array holding the single
non-blank value 1.0, gal_data_blank_to_value never terminates — the
do-while body only advances the pointer when the blank test holds, so
the loop spins forever at the first non-blank element, for every fuel
bound. -/
theorem blank_to_value_never_terminates (fuel : Nat) :
    gal_data_blank_to_value stuckFloatData (.f (.fin 0)) fuel = .timeout := by
  have h := blankToValueLoop_stuck floatBlankTestUsed (.f (.fin 0)) 0
    [.f (.fin 1)] (by decide) (by decide) fuel
  simp [gal_data_blank_to_value, stuckFloatData, runBlankLoop, h]

end GnuastroData
